import Mathlib

/-!
Shallow embedding of the LoveCakes backend (Express + SQL Server stored
procedures) for verification of the specification claims.

Tables are embedded as Lean lists of row structures, mirroring
`src/backend/database/functional/_structure.sql`.  The stored procedures
`spCartItemAdd`, `spProductGet`, `spProductList` and `spProductRelated`
are embedded as pure functions over a `Db` state, following the T-SQL
sources line by line.

`NUMERIC(18,6)` columns are embedded as `Int`, read as an exact count of
millionths of the currency unit: every arithmetic operation the
procedures perform on these columns (addition, multiplication by an
integer quantity, order comparison, `ISNULL` coalescing) is exact on
`NUMERIC(18,6)` and corresponds exactly to the same operation on the
scaled integers.  `DATETIME2` columns are embedded as `Int` ticks.
`IDENTITY` columns are embedded by explicit `next…Id` counters on the
state.  `NULL`able columns and parameters are embedded as `Option`.
-/

namespace LoveCakes

/-- `NUMERIC(18,6)`, as an exact count of millionths. -/
abbrev Price := Int

/-- Row of `functional.product` (`_structure.sql`). -/
structure ProductRow where
  idProduct : Int
  idAccount : Int
  idCategory : Int
  idConfectioner : Int
  name : String
  description : String
  ingredients : String
  nutritionalInfo : Option String
  basePrice : Price
  promotionalPrice : Option Price
  mainImage : String
  imageGallery : Option String
  averageRating : Price
  totalReviews : Int
  preparationTime : String
  available : Bool
  active : Bool
  dateCreated : Int
  deleted : Bool
deriving DecidableEq, Repr

/-- Row of `functional.category`. -/
structure CategoryRow where
  idCategory : Int
  idAccount : Int
  name : String
  deleted : Bool
deriving DecidableEq, Repr

/-- Row of `functional.confectioner`. -/
structure ConfectionerRow where
  idConfectioner : Int
  idAccount : Int
  name : String
  photo : Option String
  averageRating : Price
  totalProductsSold : Int
  deleted : Bool
deriving DecidableEq, Repr

/-- Row of `functional.flavor`. -/
structure FlavorRow where
  idFlavor : Int
  idAccount : Int
  name : String
  description : String
  deleted : Bool
deriving DecidableEq, Repr

/-- Row of `functional.size`. -/
structure SizeRow where
  idSize : Int
  idAccount : Int
  name : String
  description : String
  priceModifier : Price
  deleted : Bool
deriving DecidableEq, Repr

/-- Row of `functional.productFlavor`. -/
structure ProductFlavorRow where
  idAccount : Int
  idProduct : Int
  idFlavor : Int
deriving DecidableEq, Repr

/-- Row of `functional.productSize`. -/
structure ProductSizeRow where
  idAccount : Int
  idProduct : Int
  idSize : Int
deriving DecidableEq, Repr

/-- Row of `functional.review`. -/
structure ReviewRow where
  idReview : Int
  idAccount : Int
  idProduct : Int
  customerName : String
  rating : Int
  comment : String
  dateCreated : Int
  deleted : Bool
deriving DecidableEq, Repr

/-- Row of `functional.cart`. -/
structure CartRow where
  idCart : Int
  idAccount : Int
  idUser : Int
  dateCreated : Int
  dateModified : Int
deriving DecidableEq, Repr

/-- Row of `functional.cartItem`. -/
structure CartItemRow where
  idCartItem : Int
  idAccount : Int
  idCart : Int
  idProduct : Int
  idFlavor : Int
  idSize : Int
  quantity : Int
  unitPrice : Price
  totalPrice : Price
  observations : Option String
  dateCreated : Int
deriving DecidableEq, Repr

/-- The database state: one list per table of the `functional` schema,
`IDENTITY` counters for `cart` and `cartItem`, and the current clock
(`GETUTCDATE()`). -/
structure Db where
  products : List ProductRow
  categories : List CategoryRow
  confectioners : List ConfectionerRow
  flavors : List FlavorRow
  sizes : List SizeRow
  productFlavors : List ProductFlavorRow
  productSizes : List ProductSizeRow
  reviews : List ReviewRow
  carts : List CartRow
  cartItems : List CartItemRow
  nextCartId : Int
  nextCartItemId : Int
  now : Int
deriving DecidableEq, Repr

/-- The error labels raised by `;THROW 51000, '<label>', 1;` in the four
stored procedures, plus two engine-raised errors: `notNullViolation` for
a write that would break a `NOT NULL` column constraint
(`_structure.sql`) and `invalidObjectName` for a statement that
references an object not in scope (SQL Server error 208). -/
inductive SqlErr
  | accountRequired
  | userRequired
  | productRequired
  | flavorRequired
  | sizeRequired
  | quantityRequired
  | quantityExceedsMaximum
  | productNotAvailable
  | flavorNotAvailable
  | sizeNotAvailable
  | productDoesntExist
  | criteriaInvalidValue
  | pageMinimumValue
  | pageSizeInvalidValue
  | sortByInvalidValue
  | availabilityInvalidValue
  | priceRangeInvalid
  | notNullViolation
  | invalidObjectName
deriving DecidableEq, Repr

/-- `ISNULL(promotionalPrice, basePrice)`: the effective price of a
product, as computed identically in all four stored procedures. -/
def currentPrice (p : ProductRow) : Price :=
  p.promotionalPrice.getD p.basePrice

/-! ## spCartItemAdd (`src/unnamed/part_002`) -/

/-- Parameters of `functional.spCartItemAdd`.  The `INT` parameters are
embedded non-nullable (the service layer `cartItemAdd` always binds
them), so the `IS NULL` validations of the procedure have no
counterpart; `@observations NVARCHAR(200) = NULL` is an `Option`. -/
structure CartAddArgs where
  idAccount : Int
  idUser : Int
  idProduct : Int
  idFlavor : Int
  idSize : Int
  quantity : Int
  observations : Option String
deriving DecidableEq, Repr

/-- The single result row `CartItemAdded` returned by `spCartItemAdd`.
Note the procedure returns `@quantity` (the requested quantity), also
when it merged into an existing item. -/
structure CartAddOut where
  idCartItem : Int
  idCart : Int
  quantity : Int
  unitPrice : Price
  totalPrice : Price
  success : Bool
deriving DecidableEq, Repr

/-- The `WHERE` clause of the cart lookup in `spCartItemAdd`
(`idAccount`- and `idUser`-scoped). -/
def cartMatch (a : CartAddArgs) (c : CartRow) : Bool :=
  c.idAccount == a.idAccount && c.idUser == a.idUser

/-- The `WHERE` clause of the existing-cart-item lookup in
`spCartItemAdd`: same cart, account, product, flavor and size. -/
def cartItemMatch (a : CartAddArgs) (idCart : Int) (it : CartItemRow) : Bool :=
  it.idCart == idCart && it.idAccount == a.idAccount &&
    it.idProduct == a.idProduct && it.idFlavor == a.idFlavor && it.idSize == a.idSize

/-- `UPDATE functional.cart SET dateModified = GETUTCDATE() WHERE idCart = @idCart`. -/
def touchCart (db : Db) (idCart : Int) : Db :=
  { db with carts := db.carts.map fun c =>
      if c.idCart == idCart then { c with dateModified := db.now } else c }

/-- The cart lookup-or-create step of the transaction: returns the state
after the step and `@idCart`. -/
def ensureCart (db : Db) (a : CartAddArgs) : Db × Int :=
  match db.carts.find? (cartMatch a) with
  | some c => (db, c.idCart)
  | none =>
      ({ db with
          carts := db.carts ++ [⟨db.nextCartId, a.idAccount, a.idUser, db.now, db.now⟩],
          nextCartId := db.nextCartId + 1 },
        db.nextCartId)

/-- The `@unitPrice` computation:
`ISNULL(prd.promotionalPrice, prd.basePrice) + siz.priceModifier`, with
the product selected by `idProduct` and `idAccount` but the `size` row
joined **only** on `siz.idSize = @idSize` (the source has no account
condition there).  `none` models `@unitPrice` left `NULL` by an empty
`SELECT`. -/
def cartUnitPrice (db : Db) (a : CartAddArgs) : Option Price :=
  match db.products.find? fun p => p.idProduct == a.idProduct && p.idAccount == a.idAccount,
        db.sizes.find? fun s => s.idSize == a.idSize with
  | some p, some s => some (currentPrice p + s.priceModifier)
  | _, _ => none

/-- The `UPDATE functional.cartItem SET quantity = @newQuantity,
totalPrice = @unitPrice * @newQuantity,
observations = ISNULL(@observations, observations)
WHERE idCartItem = @idCartItem` statement of the merge branch. -/
def mergeItemUpdate (db1 : Db) (a : CartAddArgs) (it : CartItemRow) (unitPrice : Price) : Db :=
  { db1 with cartItems := db1.cartItems.map fun j =>
      if j.idCartItem == it.idCartItem then
        { j with
            quantity := it.quantity + a.quantity,
            totalPrice := unitPrice * (it.quantity + a.quantity),
            observations := a.observations.or j.observations }
      else j }

/-- The `INSERT INTO functional.cartItem (…)` statement of the
new-item branch. -/
def insertItem (db1 : Db) (a : CartAddArgs) (idCart : Int) (unitPrice : Price) : Db :=
  { db1 with
      cartItems := db1.cartItems ++
        [⟨db1.nextCartItemId, a.idAccount, idCart, a.idProduct, a.idFlavor, a.idSize,
          a.quantity, unitPrice, unitPrice * a.quantity, a.observations, db1.now⟩],
      nextCartItemId := db1.nextCartItemId + 1 }

/-- The upsert step: merge into an existing matching cart item (throwing
when the merged quantity would exceed 10) or insert a new one; either
way the cart's `dateModified` is touched afterwards. -/
def upsertCartItem (db1 : Db) (a : CartAddArgs) (idCart : Int) (unitPrice : Price) :
    Except SqlErr (Db × CartAddOut) :=
  match db1.cartItems.find? (cartItemMatch a idCart) with
  | some it =>
      if it.quantity + a.quantity > 10 then
        .error .quantityExceedsMaximum
      else
        .ok (touchCart (mergeItemUpdate db1 a it unitPrice) idCart,
          ⟨it.idCartItem, idCart, a.quantity, unitPrice, unitPrice * a.quantity, true⟩)
  | none =>
      .ok (touchCart (insertItem db1 a idCart unitPrice) idCart,
        ⟨db1.nextCartItemId, idCart, a.quantity, unitPrice, unitPrice * a.quantity, true⟩)

/-- The `BEGIN TRY … BEGIN TRAN` body of `spCartItemAdd`: cart lookup or
creation, unit-price computation, upsert of the cart item.  An `error`
result models a `THROW` inside the transaction; the caller performs the
`ROLLBACK`. -/
def cartItemAddTran (db : Db) (a : CartAddArgs) : Except SqlErr (Db × CartAddOut) :=
  match cartUnitPrice (ensureCart db a).1 a with
  | none => .error .notNullViolation
  | some unitPrice => upsertCartItem (ensureCart db a).1 a (ensureCart db a).2 unitPrice

/-- `functional.spCartItemAdd`: the validation chain, then the
transaction body; a `THROW` inside the transaction reaches the
`BEGIN CATCH` block which rolls the transaction back, leaving the
database unchanged. -/
def spCartItemAdd (db : Db) (a : CartAddArgs) : Db × Except SqlErr CartAddOut :=
  if a.quantity < 1 then (db, .error .quantityRequired)
  else if a.quantity > 10 then (db, .error .quantityExceedsMaximum)
  else if !(db.products.any fun p =>
      p.idProduct == a.idProduct && p.idAccount == a.idAccount &&
        !p.deleted && p.active && p.available) then
    (db, .error .productNotAvailable)
  else if !(db.productFlavors.any fun pf =>
      pf.idProduct == a.idProduct && pf.idAccount == a.idAccount &&
        pf.idFlavor == a.idFlavor) then
    (db, .error .flavorNotAvailable)
  else if !(db.productSizes.any fun ps =>
      ps.idProduct == a.idProduct && ps.idAccount == a.idAccount &&
        ps.idSize == a.idSize) then
    (db, .error .sizeNotAvailable)
  else
    match cartItemAddTran db a with
    | .ok (db', out) => (db', .ok out)
    | .error e => (db, .error e)

/-! ## ORDER BY: comparators and sorting

T-SQL `ORDER BY` over a key list whose last key (`idProduct`) is a
column is embedded as a sort by a lexicographic comparator.  `DESC`
keys compare the arguments swapped; a nullable `ASC` key sorts `NULL`
first and a nullable `DESC` key sorts `NULL` last, which both fall out
of comparing with `cmpOptLow` (NULL lowest) and swapping for `DESC`,
exactly SQL Server's `NULL` ordering. -/

/-- Three-way comparison from a linear order. -/
def cmpLin {β : Type} [LinearOrder β] (a b : β) : Ordering :=
  if a < b then .lt else if b < a then .gt else .eq

/-- Three-way comparison on nullable values, `NULL` lowest (SQL Server). -/
def cmpOptLow {β : Type} [LinearOrder β] : Option β → Option β → Ordering
  | none, none => .eq
  | none, some _ => .lt
  | some _, none => .gt
  | some a, some b => cmpLin a b

/-- The boolean `≤` induced by a three-way comparator. -/
def cmpLe {α : Type} (c : α → α → Ordering) (x y : α) : Bool :=
  match c x y with
  | .gt => false
  | _ => true

/-- The laws a comparator needs for `cmpLe` to be a total preorder. -/
structure IsLinCmp {α : Type} (c : α → α → Ordering) : Prop where
  swap_eq : ∀ x y, (c x y).swap = c y x
  lt_trans : ∀ {x y z}, c x y = .lt → c y z = .lt → c x z = .lt
  eq_trans : ∀ {x y z}, c x y = .eq → c y z = .eq → c x z = .eq
  eq_lt : ∀ {x y z}, c x y = .eq → c y z = .lt → c x z = .lt
  lt_eq : ∀ {x y z}, c x y = .lt → c y z = .eq → c x z = .lt

theorem isLinCmp_cmpLin {β : Type} [LinearOrder β] : IsLinCmp (cmpLin (β := β)) := by
  constructor
  case swap_eq =>
    intro x y
    unfold cmpLin
    rcases lt_trichotomy x y with h | h | h
    · simp [h, not_lt.mpr (le_of_lt h), Ordering.swap]
    · simp [h, lt_irrefl, Ordering.swap]
    · simp [h, not_lt.mpr (le_of_lt h), Ordering.swap]
  all_goals
    intro x y z hxy hyz
  case lt_trans =>
    unfold cmpLin at *
    split at hxy
    case isTrue h1 =>
      split at hyz
      case isTrue h2 => simp [lt_trans h1 h2]
      case isFalse h2 => split at hyz <;> simp_all
    case isFalse h1 => split at hxy <;> simp_all
  case eq_trans =>
    unfold cmpLin at *
    split at hxy
    · simp_all
    · split at hxy
      · simp_all
      · have hxy' : x = y := le_antisymm (not_lt.mp (by assumption)) (not_lt.mp (by assumption))
        subst hxy'
        exact hyz
  case eq_lt =>
    unfold cmpLin at *
    split at hxy
    · simp_all
    · split at hxy
      · simp_all
      · have hxy' : x = y := le_antisymm (not_lt.mp (by assumption)) (not_lt.mp (by assumption))
        subst hxy'
        exact hyz
  case lt_eq =>
    unfold cmpLin at *
    split at hyz
    · simp_all
    · split at hyz
      · simp_all
      · have hyz' : y = z := le_antisymm (not_lt.mp (by assumption)) (not_lt.mp (by assumption))
        subst hyz'
        exact hxy

theorem isLinCmp_cmpOptLow {β : Type} [LinearOrder β] : IsLinCmp (cmpOptLow (β := β)) := by
  have h := isLinCmp_cmpLin (β := β)
  constructor
  case swap_eq =>
    intro x y
    cases x <;> cases y <;> simp [cmpOptLow, Ordering.swap]
    exact h.swap_eq _ _
  case lt_trans =>
    intro x y z hxy hyz
    cases x <;> cases y <;> cases z <;> simp_all [cmpOptLow]
    exact h.lt_trans hxy hyz
  case eq_trans =>
    intro x y z hxy hyz
    cases x <;> cases y <;> cases z <;> simp_all [cmpOptLow]
    exact h.eq_trans hxy hyz
  case eq_lt =>
    intro x y z hxy hyz
    cases x <;> cases y <;> cases z <;> simp_all [cmpOptLow]
    exact h.eq_lt hxy hyz
  case lt_eq =>
    intro x y z hxy hyz
    cases x <;> cases y <;> cases z <;> simp_all [cmpOptLow]
    exact h.lt_eq hxy hyz

/-- A comparator pulled back along a key function stays lawful. -/
theorem IsLinCmp.comap {α β : Type} {c : β → β → Ordering} (h : IsLinCmp c) (f : α → β) :
    IsLinCmp (fun x y => c (f x) (f y)) := by
  constructor
  case swap_eq => intro x y; exact h.swap_eq (f x) (f y)
  case lt_trans => intro x y z hxy hyz; exact h.lt_trans hxy hyz
  case eq_trans => intro x y z hxy hyz; exact h.eq_trans hxy hyz
  case eq_lt => intro x y z hxy hyz; exact h.eq_lt hxy hyz
  case lt_eq => intro x y z hxy hyz; exact h.lt_eq hxy hyz

/-- Swapping the arguments (a `DESC` key) stays lawful. -/
theorem IsLinCmp.flip {α : Type} {c : α → α → Ordering} (h : IsLinCmp c) :
    IsLinCmp (fun x y => c y x) := by
  constructor
  case swap_eq => intro x y; exact h.swap_eq y x
  case lt_trans => intro x y z hxy hyz; exact h.lt_trans hyz hxy
  case eq_trans => intro x y z hxy hyz; exact h.eq_trans hyz hxy
  case eq_lt => intro x y z hxy hyz; exact h.lt_eq hyz hxy
  case lt_eq => intro x y z hxy hyz; exact h.eq_lt hyz hxy

/-- Lexicographic combination of two lawful comparators is lawful. -/
theorem IsLinCmp.lex {α : Type} {c d : α → α → Ordering} (hc : IsLinCmp c) (hd : IsLinCmp d) :
    IsLinCmp (fun x y => (c x y).then (d x y)) := by
  have hswap : ∀ x y, c x y = .eq ↔ c y x = .eq := by
    intro x y
    constructor
    · intro h; have := hc.swap_eq x y; rw [h] at this; simpa [Ordering.swap] using this.symm
    · intro h; have := hc.swap_eq y x; rw [h] at this; simpa [Ordering.swap] using this.symm
  constructor
  case swap_eq =>
    intro x y
    rcases he : c x y with _ | _ | _
    · have : c y x = .gt := by
        have := hc.swap_eq x y; rw [he] at this; simpa [Ordering.swap] using this.symm
      simp [he, this, Ordering.then, Ordering.swap]
    · have : c y x = .eq := (hswap x y).mp he
      simp [he, this, Ordering.then, hd.swap_eq x y]
    · have : c y x = .lt := by
        have := hc.swap_eq x y; rw [he] at this; simpa [Ordering.swap] using this.symm
      simp [he, this, Ordering.then, Ordering.swap]
  case lt_trans =>
    intro x y z hxy hyz
    rcases h1 : c x y with _ | _ | _ <;> rcases h2 : c y z with _ | _ | _ <;>
      simp [h1, h2, Ordering.then] at hxy hyz ⊢
    · simp [hc.lt_trans h1 h2, Ordering.then]
    · simp [hc.lt_eq h1 h2, Ordering.then]
    · simp [hc.eq_lt h1 h2, Ordering.then]
    · simp [hc.eq_trans h1 h2, Ordering.then, hd.lt_trans hxy hyz]
  case eq_trans =>
    intro x y z hxy hyz
    rcases h1 : c x y with _ | _ | _ <;> rcases h2 : c y z with _ | _ | _ <;>
      simp [h1, h2, Ordering.then] at hxy hyz ⊢
    simp [hc.eq_trans h1 h2, Ordering.then, hd.eq_trans hxy hyz]
  case eq_lt =>
    intro x y z hxy hyz
    rcases h1 : c x y with _ | _ | _ <;> rcases h2 : c y z with _ | _ | _ <;>
      simp [h1, h2, Ordering.then] at hxy hyz ⊢
    · simp [hc.eq_lt h1 h2, Ordering.then]
    · simp [hc.eq_trans h1 h2, Ordering.then, hd.eq_lt hxy hyz]
  case lt_eq =>
    intro x y z hxy hyz
    rcases h1 : c x y with _ | _ | _ <;> rcases h2 : c y z with _ | _ | _ <;>
      simp [h1, h2, Ordering.then] at hxy hyz ⊢
    · simp [hc.lt_eq h1 h2, Ordering.then]
    · simp [hc.eq_trans h1 h2, Ordering.then, hd.lt_eq hxy hyz]

/-- `cmpLe` of a lawful comparator is total. -/
theorem IsLinCmp.le_total {α : Type} {c : α → α → Ordering} (h : IsLinCmp c) (x y : α) :
    cmpLe c x y || cmpLe c y x := by
  unfold cmpLe
  rcases he : c x y with _ | _ | _ <;> simp
  have := h.swap_eq x y
  rw [he] at this
  have : c y x = .lt := by simpa [Ordering.swap] using this.symm
  simp [this]

/-- `cmpLe` of a lawful comparator is transitive. -/
theorem IsLinCmp.le_trans {α : Type} {c : α → α → Ordering} (h : IsLinCmp c) {x y z : α}
    (hxy : cmpLe c x y) (hyz : cmpLe c y z) : cmpLe c x z := by
  unfold cmpLe at *
  rcases h1 : c x y with _ | _ | _ <;> rcases h2 : c y z with _ | _ | _ <;>
    simp [h1, h2] at hxy hyz ⊢ <;>
    first
    | simp [h.lt_trans h1 h2]
    | simp [h.lt_eq h1 h2]
    | simp [h.eq_lt h1 h2]
    | simp [h.eq_trans h1 h2]

/-- Sorted insertion, the auxiliary step of `sortList`. -/
def insSorted {α : Type} (le : α → α → Bool) (x : α) : List α → List α
  | [] => [x]
  | y :: ys => if le x y then x :: y :: ys else y :: insSorted le x ys

/-- Insertion sort; a stable sort, as SQL Server's `ORDER BY` output is
uniquely determined anyway whenever the final tie-break key is unique. -/
def sortList {α : Type} (le : α → α → Bool) : List α → List α
  | [] => []
  | x :: xs => insSorted le x (sortList le xs)

theorem perm_insSorted {α : Type} (le : α → α → Bool) (x : α) (l : List α) :
    List.Perm (insSorted le x l) (x :: l) := by
  induction l with
  | nil => simp [insSorted]
  | cons y ys ih =>
    unfold insSorted
    split
    · exact List.Perm.refl _
    · exact List.Perm.trans (List.Perm.cons y ih) (List.Perm.swap x y ys)

theorem perm_sortList {α : Type} (le : α → α → Bool) (l : List α) :
    List.Perm (sortList le l) l := by
  induction l with
  | nil => simp [sortList]
  | cons x xs ih =>
    exact List.Perm.trans (perm_insSorted le x (sortList le xs)) (List.Perm.cons x ih)

theorem mem_sortList {α : Type} {le : α → α → Bool} {l : List α} {x : α} :
    x ∈ sortList le l ↔ x ∈ l :=
  (perm_sortList le l).mem_iff

theorem length_sortList {α : Type} (le : α → α → Bool) (l : List α) :
    (sortList le l).length = l.length :=
  (perm_sortList le l).length_eq

theorem mem_insSorted {α : Type} {le : α → α → Bool} {l : List α} {x y : α} :
    y ∈ insSorted le x l ↔ y = x ∨ y ∈ l := by
  have := (perm_insSorted le x l).mem_iff (a := y)
  simpa using this

theorem pairwise_insSorted {α : Type} {le : α → α → Bool}
    (htot : ∀ x y, le x y || le y x) (htr : ∀ {x y z}, le x y → le y z → le x z)
    {l : List α} (x : α) (h : l.Pairwise fun a b => le a b) :
    (insSorted le x l).Pairwise fun a b => le a b := by
  induction l with
  | nil => simp [insSorted]
  | cons y ys ih =>
    unfold insSorted
    split
    case isTrue hxy =>
      refine List.Pairwise.cons ?_ h
      intro z hz
      rcases List.mem_cons.mp hz with rfl | hz
      · exact hxy
      · exact htr hxy (List.rel_of_pairwise_cons h hz)
    case isFalse hxy =>
      have hyx : le y x := by
        have := htot x y
        simp [hxy] at this
        exact this
      refine List.Pairwise.cons ?_ (ih h.tail)
      intro z hz
      rcases mem_insSorted.mp hz with rfl | hz
      · exact hyx
      · exact List.rel_of_pairwise_cons h hz

theorem sorted_sortList {α : Type} {le : α → α → Bool}
    (htot : ∀ x y, le x y || le y x) (htr : ∀ {x y z}, le x y → le y z → le x z)
    (l : List α) : (sortList le l).Pairwise fun a b => le a b := by
  induction l with
  | nil => simp [sortList]
  | cons x xs ih => exact pairwise_insSorted htot htr x ih

/-- The top-`k` property of `take k` after sorting: an element of the
input left out of the result means the result is full, and every kept
element ranks at least as high. -/
theorem take_sortList_topk {α : Type} {c : α → α → Ordering} (hc : IsLinCmp c)
    {l : List α} {k : Nat} {r : α} (hr : r ∈ l)
    (hout : r ∉ (sortList (cmpLe c) l).take k) :
    ((sortList (cmpLe c) l).take k).length = k ∧
      ∀ s ∈ (sortList (cmpLe c) l).take k, cmpLe c s r := by
  set sorted := sortList (cmpLe c) l with hs
  have hmem : r ∈ sorted := mem_sortList.mpr hr
  have hsplit : sorted.take k ++ sorted.drop k = sorted := List.take_append_drop k sorted
  have hrdrop : r ∈ sorted.drop k := by
    rcases List.mem_append.mp (hsplit ▸ hmem) with h | h
    · exact absurd h hout
    · exact h
  have hklen : k < sorted.length := by
    by_contra hk
    push_neg at hk
    rw [List.take_of_length_le hk] at hout
    exact hout hmem
  constructor
  · simp [List.length_take]
    omega
  · intro s hsmem
    have hpw : (sorted.take k ++ sorted.drop k).Pairwise fun a b => cmpLe c a b := by
      rw [hsplit]
      exact sorted_sortList (hc.le_total) (fun h1 h2 => hc.le_trans h1 h2) l
    exact (List.pairwise_append.mp hpw).2.2 s hsmem r hrdrop

/-! ## spProductList (`src/unnamed/part_003`, second procedure) -/

/-- `expr LIKE '%' + term + '%'`: substring containment. -/
def likeContains (s pat : String) : Bool :=
  pat == "" || (s.splitOn pat).length != 1

/-- `SELECT CAST(value AS INT) FROM STRING_SPLIT(csv, ',')`. -/
def splitCsvInts (s : String) : List Int :=
  (s.splitOn ",").map fun t => t.toInt?.getD 0

/-- Parameters of `functional.spProductList`, after the service layer
`productList` has applied its defaults. -/
structure ProductListArgs where
  idAccount : Int
  page : Int
  pageSize : Int
  sortBy : String
  categories : Option String
  flavors : Option String
  sizes : Option String
  minPrice : Option Price
  maxPrice : Option Price
  confectioners : Option String
  availability : String
  searchTerm : Option String
deriving DecidableEq, Repr

/-- A row of the `FilteredProducts` CTE: a product joined with its
(non-deleted) category and confectioner. -/
structure FilteredProductRow where
  prd : ProductRow
  categoryName : String
  confectionerName : String
  confectionerRating : Price
deriving DecidableEq, Repr

/-- The availability branch of the CTE `WHERE` clause. -/
def availabilityOk (avail : String) (p : ProductRow) : Bool :=
  (avail == "disponivel" && p.available) || (avail == "indisponivel" && !p.available) ||
    avail == "todos"

/-- The search-term branch: name, description or ingredients `LIKE`. -/
def searchOk (term : Option String) (p : ProductRow) : Bool :=
  match term with
  | none => true
  | some t => likeContains p.name t || likeContains p.description t || likeContains p.ingredients t

/-- `csv IS NULL OR x IN (STRING_SPLIT(csv, ','))`. -/
def csvOk (csv : Option String) (x : Int) : Bool :=
  match csv with
  | none => true
  | some s => (splitCsvInts s).contains x

/-- `@minPrice IS NULL OR ISNULL(promotionalPrice, basePrice) >= @minPrice`. -/
def priceMinOk (m : Option Price) (p : ProductRow) : Bool :=
  match m with
  | none => true
  | some v => decide (v ≤ currentPrice p)

/-- `@maxPrice IS NULL OR ISNULL(promotionalPrice, basePrice) <= @maxPrice`. -/
def priceMaxOk (m : Option Price) (p : ProductRow) : Bool :=
  match m with
  | none => true
  | some v => decide (currentPrice p ≤ v)

/-- The flavor filter: `EXISTS` a `productFlavor` row of the same account
and product whose flavor is in the CSV list. -/
def flavorsOk (db : Db) (csv : Option String) (p : ProductRow) : Bool :=
  match csv with
  | none => true
  | some s =>
      db.productFlavors.any fun pf =>
        pf.idAccount == p.idAccount && pf.idProduct == p.idProduct &&
          (splitCsvInts s).contains pf.idFlavor

/-- The size filter: `EXISTS` a `productSize` row of the same account
and product whose size is in the CSV list. -/
def sizesOk (db : Db) (csv : Option String) (p : ProductRow) : Bool :=
  match csv with
  | none => true
  | some s =>
      db.productSizes.any fun ps =>
        ps.idAccount == p.idAccount && ps.idProduct == p.idProduct &&
          (splitCsvInts s).contains ps.idSize

/-- The full `WHERE` clause of the `FilteredProducts` CTE on the
`product` row. -/
def productListWhere (db : Db) (a : ProductListArgs) (p : ProductRow) : Bool :=
  p.idAccount == a.idAccount && !p.deleted && p.active &&
    availabilityOk a.availability p && searchOk a.searchTerm p &&
    csvOk a.categories p.idCategory && csvOk a.confectioners p.idConfectioner &&
    priceMinOk a.minPrice p && priceMaxOk a.maxPrice p &&
    flavorsOk db a.flavors p && sizesOk db a.sizes p

/-- The `FilteredProducts` CTE: products passing the `WHERE` clause,
inner-joined with their non-deleted category and confectioner. -/
def filteredProducts (db : Db) (a : ProductListArgs) : List FilteredProductRow :=
  db.products.filterMap fun p =>
    if productListWhere db a p then
      match
        db.categories.find? fun c =>
          c.idAccount == p.idAccount && c.idCategory == p.idCategory && !c.deleted,
        db.confectioners.find? fun c =>
          c.idAccount == p.idAccount && c.idConfectioner == p.idConfectioner && !c.deleted
      with
      | some cat, some cnf => some ⟨p, cat.name, cnf.name, cnf.averageRating⟩
      | _, _ => none
    else none

/-- `CASE WHEN @sortBy = 'preco_menor' THEN ISNULL(promotionalPrice, basePrice) END`. -/
def listKeyPrecoMenor (sb : String) (r : FilteredProductRow) : Option Int :=
  if sb == "preco_menor" then some (currentPrice r.prd) else none

/-- `CASE WHEN @sortBy = 'preco_maior' THEN ISNULL(promotionalPrice, basePrice) END`. -/
def listKeyPrecoMaior (sb : String) (r : FilteredProductRow) : Option Int :=
  if sb == "preco_maior" then some (currentPrice r.prd) else none

/-- `CASE WHEN @sortBy = 'melhor_avaliados' THEN averageRating END`. -/
def listKeyMelhorAvaliados (sb : String) (r : FilteredProductRow) : Option Int :=
  if sb == "melhor_avaliados" then some r.prd.averageRating else none

/-- `CASE WHEN @sortBy = 'mais_recentes' THEN dateCreated END`. -/
def listKeyMaisRecentes (sb : String) (r : FilteredProductRow) : Option Int :=
  if sb == "mais_recentes" then some r.prd.dateCreated else none

/-- The `ORDER BY` comparator of `spProductList`: the four conditional
`CASE` keys (first `ASC`, the other three `DESC`), then `idProduct`. -/
def productListCmp (sb : String) (x y : FilteredProductRow) : Ordering :=
  (cmpOptLow (listKeyPrecoMenor sb x) (listKeyPrecoMenor sb y)).then
    ((cmpOptLow (listKeyPrecoMaior sb y) (listKeyPrecoMaior sb x)).then
      ((cmpOptLow (listKeyMelhorAvaliados sb y) (listKeyMelhorAvaliados sb x)).then
        ((cmpOptLow (listKeyMaisRecentes sb y) (listKeyMaisRecentes sb x)).then
          (cmpLin x.prd.idProduct y.prd.idProduct))))

/-- The sorted `FilteredProducts` set, before `OFFSET`/`FETCH`. -/
def sortedFilteredProducts (db : Db) (a : ProductListArgs) : List FilteredProductRow :=
  sortList (cmpLe (productListCmp a.sortBy)) (filteredProducts db a)

/-- A row of the first result set (`ProductList`) of `spProductList`. -/
structure ProductListOut where
  idProduct : Int
  name : String
  mainImage : String
  basePrice : Price
  promotionalPrice : Option Price
  currentPrice : Price
  hasPromotion : Bool
  averageRating : Price
  totalReviews : Int
  confectionerName : String
  available : Bool
  preparationTime : String
  categoryName : String
deriving DecidableEq, Repr

/-- The output projection of the first result set of `spProductList`. -/
def projList (r : FilteredProductRow) : ProductListOut :=
  ⟨r.prd.idProduct, r.prd.name, r.prd.mainImage, r.prd.basePrice, r.prd.promotionalPrice,
    currentPrice r.prd, r.prd.promotionalPrice.isSome, r.prd.averageRating, r.prd.totalReviews,
    r.confectionerName, r.prd.available, r.prd.preparationTime, r.categoryName⟩

/-- The row shape of the `Pagination` result set that the second
`SELECT` of `spProductList` is written to produce (`totalItems`,
`totalPages`, `currentPage`, `pageSize`).  That statement never runs
successfully — see `spProductList` — so no value of this type is ever
returned. -/
structure PaginationOut where
  totalItems : Nat
  totalPages : Nat
  currentPage : Int
  pageSize : Int
deriving DecidableEq, Repr

/-- The observable outcome of `spProductList` once its validations have
passed: the `ProductList` result set emitted by the first statement,
and the outcome of the `Pagination` statement that follows it. -/
structure ProductListOutcome where
  productList : List ProductListOut
  pagination : Except SqlErr PaginationOut
deriving Repr

/-- `functional.spProductList`: the validation chain, then the page
slice of the sorted `FilteredProducts` CTE, emitted as the first result
set.  The `Pagination` `SELECT` that follows
(`SELECT COUNT(*) … FROM [FilteredProducts];`) is a separate statement,
and a T-SQL CTE is in scope only for the single statement written
directly after it; the procedure creates under deferred name
resolution, but executing that statement always raises
`Invalid object name 'FilteredProducts'` (error 208), so the second
result set is never produced. -/
def spProductList (db : Db) (a : ProductListArgs) :
    Except SqlErr ProductListOutcome :=
  if a.page < 1 then .error .pageMinimumValue
  else if !(a.pageSize == 12 || a.pageSize == 24 || a.pageSize == 36) then
    .error .pageSizeInvalidValue
  else if !(a.sortBy == "relevancia" || a.sortBy == "preco_menor" || a.sortBy == "preco_maior" ||
      a.sortBy == "mais_vendidos" || a.sortBy == "melhor_avaliados" ||
      a.sortBy == "mais_recentes") then
    .error .sortByInvalidValue
  else if !(a.availability == "disponivel" || a.availability == "indisponivel" ||
      a.availability == "todos") then
    .error .availabilityInvalidValue
  else if (match a.minPrice, a.maxPrice with
      | some mn, some mx => decide (mx < mn)
      | _, _ => false) then
    .error .priceRangeInvalid
  else
    .ok ⟨(((sortedFilteredProducts db a).drop ((a.page - 1) * a.pageSize).toNat).take
        a.pageSize.toNat).map projList,
      .error .invalidObjectName⟩

/-! ## spProductGet (`src/backend/database/functional/product/spProductGet.sql`) -/

/-- Parameters of `functional.spProductGet`. -/
structure ProductGetArgs where
  idAccount : Int
  idProduct : Int
deriving DecidableEq, Repr

/-- A row of the `ProductDetails` result set. -/
structure ProductGetDetails where
  idProduct : Int
  name : String
  description : String
  ingredients : String
  nutritionalInfo : Option String
  basePrice : Price
  promotionalPrice : Option Price
  currentPrice : Price
  hasPromotion : Bool
  mainImage : String
  imageGallery : Option String
  averageRating : Price
  totalReviews : Int
  preparationTime : String
  available : Bool
  idConfectioner : Int
  confectionerName : String
  confectionerPhoto : Option String
  confectionerRating : Price
  confectionerProductsSold : Int
deriving DecidableEq, Repr

/-- A row of the `AvailableFlavors` result set. -/
structure FlavorOut where
  idFlavor : Int
  name : String
  description : String
deriving DecidableEq, Repr

/-- A row of the `AvailableSizes` result set. -/
structure SizeOut where
  idSize : Int
  name : String
  description : String
  priceModifier : Price
deriving DecidableEq, Repr

/-- A row of the `ProductReviews` result set. -/
structure ReviewOut where
  idReview : Int
  customerName : String
  rating : Int
  comment : String
  dateCreated : Int
deriving DecidableEq, Repr

/-- The four result sets of `spProductGet`. -/
structure ProductGetResult where
  details : List ProductGetDetails
  flavors : List FlavorOut
  sizes : List SizeOut
  reviews : List ReviewOut
deriving DecidableEq, Repr

/-- The `ProductDetails` query: the product joined with its non-deleted
confectioner, both scoped to the account. -/
def getDetails (db : Db) (a : ProductGetArgs) : List ProductGetDetails :=
  db.products.filterMap fun p =>
    if p.idProduct == a.idProduct && p.idAccount == a.idAccount && !p.deleted then
      (db.confectioners.find? fun c =>
          c.idAccount == p.idAccount && c.idConfectioner == p.idConfectioner).bind fun c =>
        if c.deleted then none
        else
          some ⟨p.idProduct, p.name, p.description, p.ingredients, p.nutritionalInfo, p.basePrice,
            p.promotionalPrice, currentPrice p, p.promotionalPrice.isSome, p.mainImage,
            p.imageGallery, p.averageRating, p.totalReviews, p.preparationTime, p.available,
            c.idConfectioner, c.name, c.photo, c.averageRating, c.totalProductsSold⟩
    else none

/-- The `AvailableFlavors` query, `ORDER BY flv.name`. -/
def getFlavors (db : Db) (a : ProductGetArgs) : List FlavorOut :=
  sortList (cmpLe fun x y : FlavorOut => cmpLin x.name y.name)
    (db.productFlavors.filterMap fun pf =>
      if pf.idProduct == a.idProduct && pf.idAccount == a.idAccount then
        (db.flavors.find? fun f =>
            f.idAccount == pf.idAccount && f.idFlavor == pf.idFlavor).bind fun f =>
          if f.deleted then none else some ⟨f.idFlavor, f.name, f.description⟩
      else none)

/-- The `AvailableSizes` query, `ORDER BY siz.priceModifier`. -/
def getSizes (db : Db) (a : ProductGetArgs) : List SizeOut :=
  sortList (cmpLe fun x y : SizeOut => cmpLin x.priceModifier y.priceModifier)
    (db.productSizes.filterMap fun ps =>
      if ps.idProduct == a.idProduct && ps.idAccount == a.idAccount then
        (db.sizes.find? fun s =>
            s.idAccount == ps.idAccount && s.idSize == ps.idSize).bind fun s =>
          if s.deleted then none else some ⟨s.idSize, s.name, s.description, s.priceModifier⟩
      else none)

/-- The `ProductReviews` query, `ORDER BY rev.dateCreated DESC`. -/
def getReviews (db : Db) (a : ProductGetArgs) : List ReviewOut :=
  sortList (cmpLe fun x y : ReviewOut => cmpLin y.dateCreated x.dateCreated)
    (db.reviews.filterMap fun rv =>
      if rv.idProduct == a.idProduct && rv.idAccount == a.idAccount && !rv.deleted then
        some ⟨rv.idReview, rv.customerName, rv.rating, rv.comment, rv.dateCreated⟩
      else none)

/-- `functional.spProductGet`: the existence validation, then the four
result sets. -/
def spProductGet (db : Db) (a : ProductGetArgs) : Except SqlErr ProductGetResult :=
  if !(db.products.any fun p =>
      p.idProduct == a.idProduct && p.idAccount == a.idAccount && !p.deleted && p.active) then
    .error .productDoesntExist
  else
    .ok ⟨getDetails db a, getFlavors db a, getSizes db a, getReviews db a⟩

/-! ## spProductRelated (`src/unnamed/part_003`, first procedure) -/

/-- Parameters of `functional.spProductRelated`, after the service layer
`productRelated` has applied its defaults (`limit = 4`,
`criteria = 'categoria'`). -/
structure ProductRelatedArgs where
  idAccount : Int
  idProduct : Int
  limit : Int
  criteria : String
deriving DecidableEq, Repr

/-- A row of the `RelatedProducts` CTE, including the computed
`matchesCriteria` `CASE` value and `popularity` (`totalReviews`). -/
structure RelRow where
  idProduct : Int
  name : String
  mainImage : String
  basePrice : Price
  promotionalPrice : Option Price
  currentPrice : Price
  averageRating : Price
  totalReviews : Int
  confectionerName : String
  matchesCriteria : Int
  popularity : Int
deriving DecidableEq, Repr

/-- A row of the `RelatedProducts` output result set. -/
structure RelatedOut where
  idProduct : Int
  name : String
  mainImage : String
  basePrice : Price
  promotionalPrice : Option Price
  currentPrice : Price
  averageRating : Price
  totalReviews : Int
  confectionerName : String
deriving DecidableEq, Repr

/-- The `matchesCriteria` `CASE` expression.  `refCat`/`refCnf` are the
reference product's category and confectioner (`NULL` when the lookup
returned no row, making the comparisons false). -/
def relMatches (db : Db) (a : ProductRelatedArgs) (refCat refCnf : Option Int)
    (p : ProductRow) : Int :=
  if a.criteria == "categoria" && some p.idCategory == refCat then 1
  else if a.criteria == "confeiteiro" && some p.idConfectioner == refCnf then 1
  else if a.criteria == "sabor" &&
      (db.productFlavors.any fun pf1 =>
        pf1.idProduct == a.idProduct && pf1.idAccount == a.idAccount &&
          (db.productFlavors.any fun pf2 =>
            pf2.idProduct == p.idProduct && pf2.idAccount == p.idAccount &&
              pf2.idFlavor == pf1.idFlavor)) then 1
  else 0

/-- The `RelatedProducts` CTE: available, active, non-deleted products of
the account other than the reference product, joined with their
non-deleted confectioner. -/
def relatedCandidates (db : Db) (a : ProductRelatedArgs) : List RelRow :=
  let ref := db.products.find? fun p => p.idProduct == a.idProduct && p.idAccount == a.idAccount
  let refCat := ref.map fun p => p.idCategory
  let refCnf := ref.map fun p => p.idConfectioner
  db.products.filterMap fun p =>
    if p.idAccount == a.idAccount && p.idProduct != a.idProduct && !p.deleted && p.active &&
        p.available then
      (db.confectioners.find? fun c =>
          c.idAccount == p.idAccount && c.idConfectioner == p.idConfectioner).bind fun c =>
        if c.deleted then none
        else
          some ⟨p.idProduct, p.name, p.mainImage, p.basePrice, p.promotionalPrice, currentPrice p,
            p.averageRating, p.totalReviews, c.name, relMatches db a refCat refCnf p,
            p.totalReviews⟩
    else none

/-- The `ORDER BY` comparator of `spProductRelated`: `matchesCriteria
DESC, popularity DESC, averageRating DESC, idProduct`. -/
def relCmp (x y : RelRow) : Ordering :=
  (cmpLin y.matchesCriteria x.matchesCriteria).then
    ((cmpLin y.popularity x.popularity).then
      ((cmpLin y.averageRating x.averageRating).then
        (cmpLin x.idProduct y.idProduct)))

/-- `SELECT TOP (@limit) … ORDER BY …` over the CTE. -/
def relatedRows (db : Db) (a : ProductRelatedArgs) : List RelRow :=
  (sortList (cmpLe relCmp) (relatedCandidates db a)).take a.limit.toNat

/-- The output projection of `spProductRelated`. -/
def projRelated (r : RelRow) : RelatedOut :=
  ⟨r.idProduct, r.name, r.mainImage, r.basePrice, r.promotionalPrice, r.currentPrice,
    r.averageRating, r.totalReviews, r.confectionerName⟩

/-- `functional.spProductRelated`: the validation chain, then the ranked
`TOP (@limit)` slice of the `RelatedProducts` CTE. -/
def spProductRelated (db : Db) (a : ProductRelatedArgs) : Except SqlErr (List RelatedOut) :=
  if !(a.criteria == "categoria" || a.criteria == "sabor" || a.criteria == "confeiteiro" ||
      a.criteria == "popularidade") then
    .error .criteriaInvalidValue
  else if !(db.products.any fun p =>
      p.idProduct == a.idProduct && p.idAccount == a.idAccount && !p.deleted) then
    .error .productDoesntExist
  else
    .ok ((relatedRows db a).map projRelated)

/-! ## The internal v1 router and its handlers
(`src/unnamed/part_005`, the controller in
`src/backend/src/middleware/notFound.ts`, the service in
`src/backend/src/services/product/index.ts`, and `CrudController` in
`src/backend/src/middleware/crud.ts`). -/

/-- An HTTP method of the Express router. -/
inductive Method
  | GET
  | POST
deriving DecidableEq, Repr

/-- The controller handlers referenced by the router. -/
inductive Handler
  | listHandler
  | getHandler
  | relatedHandler
  | addToCartHandler
deriving DecidableEq, Repr

/-- One `router.get`/`router.post` registration. -/
structure Route where
  method : Method
  path : String
  handler : Handler
deriving DecidableEq, Repr

/-- The business routes registered on the internal v1 router
(`src/unnamed/part_005`). -/
def internalRoutes : List Route :=
  [⟨.GET, "/product", .listHandler⟩,
   ⟨.GET, "/product/:id", .getHandler⟩,
   ⟨.GET, "/product/:id/related", .relatedHandler⟩,
   ⟨.POST, "/cart/item", .addToCartHandler⟩]

/-- The request credential produced by `CrudController.validate`. -/
structure Credential where
  idAccount : Int
  idUser : Int
deriving DecidableEq, Repr

/-- The four stored procedures. -/
inductive Proc
  | spProductList
  | spProductGet
  | spProductRelated
  | spCartItemAdd
deriving DecidableEq, Repr

/-- The validated query of `listHandler` (its zod `querySchema`). -/
structure ListQuery where
  page : Option Int
  pageSize : Option Int
  sortBy : Option String
  categories : Option String
  flavors : Option String
  sizes : Option String
  minPrice : Option Price
  maxPrice : Option Price
  confectioners : Option String
  availability : Option String
  searchTerm : Option String
deriving DecidableEq, Repr

/-- The validated query of `relatedHandler`. -/
structure RelatedQuery where
  limit : Option Int
  criteria : Option String
deriving DecidableEq, Repr

/-- The validated body of `addToCartHandler` (its zod `bodySchema`). -/
structure CartBody where
  idProduct : Int
  idFlavor : Int
  idSize : Int
  quantity : Int
  observations : Option String
deriving DecidableEq, Repr

/-- The data a request carries into a handler: the `:id` route
parameter, query and body (each handler reads only its own part). -/
structure HandlerRequest where
  idParam : Int
  listQuery : ListQuery
  relatedQuery : RelatedQuery
  cartBody : CartBody
deriving DecidableEq, Repr

/-- JavaScript `x || d` for an optional number (`0` is falsy). -/
def jsOrInt (x : Option Int) (d : Int) : Int :=
  match x with
  | some v => if v == 0 then d else v
  | none => d

/-- JavaScript `x || d` for an optional string (`''` is falsy). -/
def jsOrStr (x : Option String) (d : String) : String :=
  match x with
  | some v => if v == "" then d else v
  | none => d

/-- JavaScript `x || null` for an optional string parameter. -/
def jsOrNullStr (x : Option String) : Option String :=
  match x with
  | some v => if v == "" then none else some v
  | none => none

/-- JavaScript `x || null` for an optional numeric parameter. -/
def jsOrNullInt (x : Option Int) : Option Int :=
  match x with
  | some v => if v == 0 then none else some v
  | none => none

/-- The stored-procedure invocation a handler performs, with the
argument record the service layer binds. -/
inductive SpCall
  | list (a : ProductListArgs)
  | get (a : ProductGetArgs)
  | related (a : ProductRelatedArgs)
  | cartAdd (a : CartAddArgs)
deriving DecidableEq, Repr

/-- Which stored procedure an invocation executes. -/
def SpCall.proc : SpCall → Proc
  | .list _ => .spProductList
  | .get _ => .spProductGet
  | .related _ => .spProductRelated
  | .cartAdd _ => .spCartItemAdd

/-- The `@idAccount` parameter the invocation binds. -/
def SpCall.idAccount : SpCall → Int
  | .list a => a.idAccount
  | .get a => a.idAccount
  | .related a => a.idAccount
  | .cartAdd a => a.idAccount

/-- The stored-procedure call each handler makes: `listHandler`,
`getHandler` and `relatedHandler` spread the request credential and
their validated params into `productList`, `productGet` and
`productRelated`; `addToCartHandler` spreads the credential and the
body into `cartItemAdd`.  The service layer applies the JavaScript
`|| default` fallbacks before binding the procedure parameters. -/
def handlerCall (h : Handler) (cred : Credential) (req : HandlerRequest) : SpCall :=
  match h with
  | .listHandler =>
      .list
        ⟨cred.idAccount, jsOrInt req.listQuery.page 1, jsOrInt req.listQuery.pageSize 12,
          jsOrStr req.listQuery.sortBy "relevancia", jsOrNullStr req.listQuery.categories,
          jsOrNullStr req.listQuery.flavors, jsOrNullStr req.listQuery.sizes,
          jsOrNullInt req.listQuery.minPrice, jsOrNullInt req.listQuery.maxPrice,
          jsOrNullStr req.listQuery.confectioners,
          jsOrStr req.listQuery.availability "disponivel",
          jsOrNullStr req.listQuery.searchTerm⟩
  | .getHandler => .get ⟨cred.idAccount, req.idParam⟩
  | .relatedHandler =>
      .related
        ⟨cred.idAccount, req.idParam, jsOrInt req.relatedQuery.limit 4,
          jsOrStr req.relatedQuery.criteria "categoria"⟩
  | .addToCartHandler =>
      .cartAdd
        ⟨cred.idAccount, cred.idUser, req.cartBody.idProduct, req.cartBody.idFlavor,
          req.cartBody.idSize, req.cartBody.quantity, jsOrNullStr req.cartBody.observations⟩

/-! ## Concrete databases used by witnesses and the C6 failing input -/

/-- A small single-account database: one available product with one
flavor and one size option, no cart yet. -/
def wdb : Db :=
  { products := [⟨1, 1, 1, 1, "cake", "d", "i", none, 100, none, "m", none, 4, 5, "t",
      true, true, 0, false⟩],
    categories := [⟨1, 1, "cat", false⟩],
    confectioners := [⟨1, 1, "cnf", none, 5, 0, false⟩],
    flavors := [⟨1, 1, "fl", "fd", false⟩],
    sizes := [⟨5, 1, "sz", "sd", 10, false⟩],
    productFlavors := [⟨1, 1, 1⟩],
    productSizes := [⟨1, 1, 5⟩],
    reviews := [],
    carts := [],
    cartItems := [],
    nextCartId := 1,
    nextCartItemId := 1,
    now := 0 }

/-- `wdb` with an existing cart of user 1 holding the product in
quantity 2 (same flavor and size options). -/
def wdbCart : Db :=
  { wdb with
      carts := [⟨7, 1, 1, 0, 0⟩],
      cartItems := [⟨3, 1, 7, 1, 1, 5, 2, 110, 220, none, 0⟩],
      nextCartId := 8,
      nextCartItemId := 4 }

/-- A valid add-to-cart request for `wdb`/`wdbCart`. -/
def cargs1 : CartAddArgs := ⟨1, 1, 1, 1, 5, 2, none⟩

/-! ## Helper lemmas about the cart transaction steps -/

theorem ensureCart_cartItems (db : Db) (a : CartAddArgs) :
    (ensureCart db a).1.cartItems = db.cartItems := by
  unfold ensureCart
  split <;> rfl

theorem ensureCart_products (db : Db) (a : CartAddArgs) :
    (ensureCart db a).1.products = db.products := by
  unfold ensureCart
  split <;> rfl

theorem ensureCart_sizes (db : Db) (a : CartAddArgs) :
    (ensureCart db a).1.sizes = db.sizes := by
  unfold ensureCart
  split <;> rfl

theorem ensureCart_nextCartItemId (db : Db) (a : CartAddArgs) :
    (ensureCart db a).1.nextCartItemId = db.nextCartItemId := by
  unfold ensureCart
  split <;> rfl

theorem ensureCart_now (db : Db) (a : CartAddArgs) :
    (ensureCart db a).1.now = db.now := by
  unfold ensureCart
  split <;> rfl

theorem touchCart_cartItems (db : Db) (i : Int) :
    (touchCart db i).cartItems = db.cartItems := rfl

/-- The `@idCart` the transaction uses: the user's cart if one exists,
else the freshly inserted identity value. -/
def cartIdUsed (db : Db) (a : CartAddArgs) : Int :=
  match db.carts.find? (cartMatch a) with
  | some c => c.idCart
  | none => db.nextCartId

theorem ensureCart_snd (db : Db) (a : CartAddArgs) :
    (ensureCart db a).2 = cartIdUsed db a := by
  unfold ensureCart cartIdUsed
  split <;> rfl

/-! ## Claim theorems -/

/-- Claim C7: the internal v1 router exposes exactly the four business
endpoints `GET /product`, `GET /product/:id`, `GET /product/:id/related`
and `POST /cart/item`; their handlers invoke `spProductList`,
`spProductGet`, `spProductRelated` and `spCartItemAdd` respectively,
every handler binds `@idAccount` from the request credential, and the
cart handler additionally binds `@idUser` from the credential. -/
theorem internal_router_four_endpoints :
    internalRoutes =
      [⟨.GET, "/product", .listHandler⟩, ⟨.GET, "/product/:id", .getHandler⟩,
        ⟨.GET, "/product/:id/related", .relatedHandler⟩,
        ⟨.POST, "/cart/item", .addToCartHandler⟩] ∧
    ∀ (cred : Credential) (req : HandlerRequest),
      (handlerCall .listHandler cred req).proc = .spProductList ∧
      (handlerCall .getHandler cred req).proc = .spProductGet ∧
      (handlerCall .relatedHandler cred req).proc = .spProductRelated ∧
      (handlerCall .addToCartHandler cred req).proc = .spCartItemAdd ∧
      (∀ h : Handler, (handlerCall h cred req).idAccount = cred.idAccount) ∧
      handlerCall .addToCartHandler cred req =
        .cartAdd
          ⟨cred.idAccount, cred.idUser, req.cartBody.idProduct, req.cartBody.idFlavor,
            req.cartBody.idSize, req.cartBody.quantity, jsOrNullStr req.cartBody.observations⟩ := by
  refine ⟨rfl, fun cred req => ⟨rfl, rfl, rfl, rfl, fun h => ?_, rfl⟩⟩
  cases h <;> rfl

/-- Claim C5: whenever `spCartItemAdd` reports an error — from a
validation throw before the transaction or from a throw inside it, such
as a merged quantity over the maximum — the database state is returned
unchanged (the `BEGIN CATCH` block rolls the transaction back). -/
theorem spCartItemAdd_error_rolls_back (db : Db) (a : CartAddArgs) (db' : Db) (e : SqlErr)
    (h : spCartItemAdd db a = (db', Except.error e)) : db' = db := by
  unfold spCartItemAdd at h
  repeat' split at h
  all_goals simp_all

/-- Witness for C5: merging 9 more units into an existing quantity of 2
passes all parameter validations but overflows the cap inside the
transaction; the state, including the cart created along the way, is
rolled back. -/
theorem spCartItemAdd_error_rolls_back_witness :
    (spCartItemAdd wdbCart { cargs1 with quantity := 9 }).1 = wdbCart :=
  spCartItemAdd_error_rolls_back wdbCart { cargs1 with quantity := 9 }
    (spCartItemAdd wdbCart { cargs1 with quantity := 9 }).1 SqlErr.quantityExceedsMaximum rfl

/-- The `chkCartItem_Quantity` check constraint
(`CHECK (quantity > 0 AND quantity <= 10)`), as an invariant on the
cart-item table. -/
def CartQuantityInv (db : Db) : Prop :=
  ∀ it ∈ db.cartItems, 1 ≤ it.quantity ∧ it.quantity ≤ 10

theorem upsertCartItem_inv {db1 : Db} {a : CartAddArgs} {idCart : Int} {up : Price}
    {db2 : Db} {out : CartAddOut}
    (hq1 : 1 ≤ a.quantity) (hq10 : a.quantity ≤ 10)
    (hinv : ∀ it ∈ db1.cartItems, 1 ≤ it.quantity ∧ it.quantity ≤ 10)
    (h : upsertCartItem db1 a idCart up = .ok (db2, out)) :
    ∀ it ∈ db2.cartItems, 1 ≤ it.quantity ∧ it.quantity ≤ 10 := by
  unfold upsertCartItem at h
  split at h
  case h_1 it hit =>
    split at h
    next => exact absurd h (by simp)
    next hle =>
      obtain ⟨hdb, _⟩ := Prod.mk.inj (Except.ok.inj h)
      subst hdb
      intro j hj
      rw [touchCart_cartItems] at hj
      unfold mergeItemUpdate at hj
      simp only [List.mem_map] at hj
      obtain ⟨j0, hj0, rfl⟩ := hj
      by_cases hid : (j0.idCartItem == it.idCartItem) = true
      · have h1 := (hinv it (List.mem_of_find?_eq_some hit)).1
        simp only [hid, if_true]
        constructor
        · show 1 ≤ it.quantity + a.quantity
          omega
        · show it.quantity + a.quantity ≤ 10
          omega
      · simp only [hid, if_false]
        exact hinv j0 hj0
  case h_2 hnone =>
    obtain ⟨hdb, _⟩ := Prod.mk.inj (Except.ok.inj h)
    subst hdb
    intro j hj
    rw [touchCart_cartItems] at hj
    unfold insertItem at hj
    simp only [List.mem_append, List.mem_singleton] at hj
    rcases hj with hj | rfl
    · exact hinv j hj
    · exact ⟨hq1, hq10⟩

theorem spCartItemAdd_preserves_inv {db : Db} {a : CartAddArgs} {db' : Db}
    {r : Except SqlErr CartAddOut} (hinv : CartQuantityInv db)
    (h : spCartItemAdd db a = (db', r)) : CartQuantityInv db' := by
  unfold spCartItemAdd at h
  split at h
  next => exact (Prod.mk.inj h).1 ▸ hinv
  split at h
  next => exact (Prod.mk.inj h).1 ▸ hinv
  split at h
  next => exact (Prod.mk.inj h).1 ▸ hinv
  split at h
  next => exact (Prod.mk.inj h).1 ▸ hinv
  split at h
  next => exact (Prod.mk.inj h).1 ▸ hinv
  next hq1 hq10 hp hf hs =>
    split at h
    case h_2 => exact (Prod.mk.inj h).1 ▸ hinv
    case h_1 db2 out htr =>
      obtain ⟨hdb, _⟩ := Prod.mk.inj h
      subst hdb
      unfold cartItemAddTran at htr
      split at htr
      next => exact absurd htr (by simp)
      next up hup =>
        refine upsertCartItem_inv (by omega) (by omega) ?_ htr
        rw [ensureCart_cartItems]
        exact hinv

theorem spCartItemAdd_rejects_low {db : Db} {a : CartAddArgs} (hq : a.quantity < 1) :
    spCartItemAdd db a = (db, .error .quantityRequired) := by
  unfold spCartItemAdd
  rw [if_pos hq]

theorem spCartItemAdd_rejects_high {db : Db} {a : CartAddArgs} (hq : 10 < a.quantity) :
    spCartItemAdd db a = (db, .error .quantityExceedsMaximum) := by
  unfold spCartItemAdd
  rw [if_neg (by omega), if_pos (by omega)]

/-- Claim C9: `spCartItemAdd` preserves the invariant
`1 ≤ quantity ≤ 10` on every cart-item row (the `chkCartItem_Quantity`
constraint), whether it succeeds or fails: a request with a quantity
below 1 or above 10 is rejected before any write, and a merge whose
combined quantity would exceed 10 is rejected rather than stored. -/
theorem spCartItemAdd_quantity_invariant (db : Db) (a : CartAddArgs) (db' : Db)
    (r : Except SqlErr CartAddOut) (hinv : CartQuantityInv db)
    (h : spCartItemAdd db a = (db', r)) :
    CartQuantityInv db' ∧
      (a.quantity < 1 → (db', r) = (db, .error .quantityRequired)) ∧
      (10 < a.quantity → (db', r) = (db, .error .quantityExceedsMaximum)) :=
  ⟨spCartItemAdd_preserves_inv hinv h,
    fun hq => h ▸ spCartItemAdd_rejects_low hq,
    fun hq => h ▸ spCartItemAdd_rejects_high hq⟩

/-- Witness for C9: merging 2 more units into an existing quantity of 2
succeeds and every cart item of the result state still satisfies the
quantity bounds. -/
theorem spCartItemAdd_quantity_invariant_witness :
    CartQuantityInv (spCartItemAdd wdbCart cargs1).1 ∧
      (cargs1.quantity < 1 →
        ((spCartItemAdd wdbCart cargs1).1, (spCartItemAdd wdbCart cargs1).2) =
          (wdbCart, .error .quantityRequired)) ∧
      (10 < cargs1.quantity →
        ((spCartItemAdd wdbCart cargs1).1, (spCartItemAdd wdbCart cargs1).2) =
          (wdbCart, .error .quantityExceedsMaximum)) :=
  spCartItemAdd_quantity_invariant wdbCart cargs1 (spCartItemAdd wdbCart cargs1).1
    (spCartItemAdd wdbCart cargs1).2
    (by intro it hit; fin_cases hit; simp)
    rfl

theorem ensureCart_carts_none {db : Db} {a : CartAddArgs}
    (hcn : db.carts.find? (cartMatch a) = none) :
    (ensureCart db a).1.carts =
      db.carts ++ [⟨db.nextCartId, a.idAccount, a.idUser, db.now, db.now⟩] := by
  unfold ensureCart
  rw [hcn]

theorem touchCart_mem {db : Db} {i : Int} {c : CartRow} (hc : c ∈ db.carts) :
    ∃ c' ∈ (touchCart db i).carts,
      c'.idCart = c.idCart ∧ c'.idAccount = c.idAccount ∧ c'.idUser = c.idUser := by
  unfold touchCart
  refine ⟨_, List.mem_map_of_mem _ hc, ?_⟩
  by_cases hid : (c.idCart == i) = true
  · simp [hid]
  · simp [hid]

/-- Claim C2: on success, `spCartItemAdd` behaves as an upsert keyed on
product + flavor + size within the user's cart: when a matching item
already exists its quantity becomes the merged `existing + requested`,
which the procedure keeps capped at 10, and no row is added; when none
exists a new `cartItem` row with exactly the requested quantity is
appended; and when the user had no cart, a cart row for this account
and user is created first (with the fresh identity value). -/
theorem spCartItemAdd_upsert (db : Db) (a : CartAddArgs) (db' : Db) (out : CartAddOut)
    (h : spCartItemAdd db a = (db', Except.ok out)) :
    (db.carts.find? (cartMatch a) = none →
      ∃ c ∈ db'.carts, c.idCart = db.nextCartId ∧ c.idAccount = a.idAccount ∧
        c.idUser = a.idUser) ∧
    (∀ it, db.cartItems.find? (cartItemMatch a (cartIdUsed db a)) = some it →
      it.quantity + a.quantity ≤ 10 ∧
        (∃ it' ∈ db'.cartItems, it'.idCartItem = it.idCartItem ∧
          it'.quantity = it.quantity + a.quantity) ∧
        db'.cartItems.length = db.cartItems.length) ∧
    (db.cartItems.find? (cartItemMatch a (cartIdUsed db a)) = none →
      db'.cartItems = db.cartItems ++
        [⟨db.nextCartItemId, a.idAccount, cartIdUsed db a, a.idProduct, a.idFlavor, a.idSize,
          a.quantity, out.unitPrice, out.totalPrice, a.observations, db.now⟩]) := by
  unfold spCartItemAdd at h
  split at h
  next => simp at h
  split at h
  next => simp at h
  split at h
  next => simp at h
  split at h
  next => simp at h
  split at h
  next => simp at h
  split at h
  case h_2 => simp at h
  case h_1 db2 out2 htr =>
    obtain ⟨hdb, hout⟩ := Prod.mk.inj h
    subst hdb
    obtain rfl := Except.ok.inj hout
    unfold cartItemAddTran at htr
    split at htr
    next => simp at htr
    next up hup =>
      unfold upsertCartItem at htr
      rw [ensureCart_cartItems, ensureCart_snd] at htr
      split at htr
      case h_1 it hit =>
        split at htr
        next => simp at htr
        next hle =>
          obtain ⟨hdb', hout'⟩ := Prod.mk.inj (Except.ok.inj htr)
          subst hdb'
          subst hout'
          refine ⟨?_, ?_, ?_⟩
          · intro hcn
            have hmem : (⟨db.nextCartId, a.idAccount, a.idUser, db.now, db.now⟩ : CartRow) ∈
                (mergeItemUpdate (ensureCart db a).1 a it up).carts := by
              show _ ∈ (ensureCart db a).1.carts
              rw [ensureCart_carts_none hcn]
              simp
            obtain ⟨c', hc', h1, h2, h3⟩ := touchCart_mem hmem
            exact ⟨c', hc', h1, h2, h3⟩
          · intro it0 hit0
            obtain rfl := Option.some.inj (hit ▸ hit0)
            refine ⟨by omega, ?_, ?_⟩
            · rw [touchCart_cartItems]
              unfold mergeItemUpdate
              rw [ensureCart_cartItems]
              refine ⟨_, List.mem_map_of_mem _ (List.mem_of_find?_eq_some hit), ?_⟩
              simp
            · rw [touchCart_cartItems]
              unfold mergeItemUpdate
              rw [ensureCart_cartItems]
              simp
          · intro hn
            rw [hit] at hn
            simp at hn
      case h_2 hnone =>
        obtain ⟨hdb', hout'⟩ := Prod.mk.inj (Except.ok.inj htr)
        subst hdb'
        subst hout'
        refine ⟨?_, ?_, ?_⟩
        · intro hcn
          have hmem : (⟨db.nextCartId, a.idAccount, a.idUser, db.now, db.now⟩ : CartRow) ∈
              (insertItem (ensureCart db a).1 a (cartIdUsed db a) up).carts := by
            show _ ∈ (ensureCart db a).1.carts
            rw [ensureCart_carts_none hcn]
            simp
          obtain ⟨c', hc', h1, h2, h3⟩ := touchCart_mem hmem
          exact ⟨c', hc', h1, h2, h3⟩
        · intro it0 hit0
          rw [hnone] at hit0
          simp at hit0
        · intro hn
          rw [touchCart_cartItems]
          unfold insertItem
          rw [ensureCart_cartItems, ensureCart_nextCartItemId, ensureCart_now]

/-- Witness for C2: adding 2 units of a product already in the cart with
quantity 2 merges to a stored quantity of 4 on the same row. -/
theorem spCartItemAdd_upsert_witness :
    ∃ it' ∈ (spCartItemAdd wdbCart cargs1).1.cartItems,
      it'.idCartItem = 3 ∧ it'.quantity = 4 :=
  ((spCartItemAdd_upsert wdbCart cargs1 (spCartItemAdd wdbCart cargs1).1
      ⟨3, 7, 2, 110, 220, true⟩ rfl).2.1 ⟨3, 1, 7, 1, 1, 5, 2, 110, 220, none, 0⟩ rfl).2.1

/-- Claim C10: when `spCartItemAdd` merges into an existing cart item it
rewrites exactly that row, changing only `quantity`, `totalPrice` and —
only when the `@observations` parameter is non-`NULL` — `observations`;
the stored `unitPrice` (and every key and date field) keeps its
insertion-time value, while the new `totalPrice` is the product's
current effective price plus the size modifier, times the merged
quantity. -/
theorem spCartItemAdd_merge_frame (db : Db) (a : CartAddArgs) (db' : Db) (out : CartAddOut)
    (it : CartItemRow) (p : ProductRow) (s : SizeRow)
    (hit : db.cartItems.find? (cartItemMatch a (cartIdUsed db a)) = some it)
    (hp : db.products.find?
      (fun q => q.idProduct == a.idProduct && q.idAccount == a.idAccount) = some p)
    (hs : db.sizes.find? (fun z => z.idSize == a.idSize) = some s)
    (h : spCartItemAdd db a = (db', Except.ok out)) :
    db'.cartItems = db.cartItems.map (fun j =>
      if j.idCartItem == it.idCartItem then
        { j with
            quantity := it.quantity + a.quantity,
            totalPrice := (currentPrice p + s.priceModifier) * (it.quantity + a.quantity),
            observations := a.observations.or j.observations }
      else j) ∧
    ∃ it' ∈ db'.cartItems, it'.idCartItem = it.idCartItem ∧ it'.idAccount = it.idAccount ∧
      it'.idCart = it.idCart ∧ it'.idProduct = it.idProduct ∧ it'.idFlavor = it.idFlavor ∧
      it'.idSize = it.idSize ∧ it'.unitPrice = it.unitPrice ∧
      it'.dateCreated = it.dateCreated ∧ it'.quantity = it.quantity + a.quantity ∧
      it'.totalPrice = (currentPrice p + s.priceModifier) * (it.quantity + a.quantity) ∧
      (a.observations = none → it'.observations = it.observations) := by
  unfold spCartItemAdd at h
  split at h
  next => simp at h
  split at h
  next => simp at h
  split at h
  next => simp at h
  split at h
  next => simp at h
  split at h
  next => simp at h
  split at h
  case h_2 => simp at h
  case h_1 db2 out2 htr =>
    obtain ⟨hdb, hout⟩ := Prod.mk.inj h
    subst hdb
    obtain rfl := Except.ok.inj hout
    unfold cartItemAddTran at htr
    split at htr
    next => simp at htr
    next up hup =>
      have hupval : currentPrice p + s.priceModifier = up := by
        unfold cartUnitPrice at hup
        rw [ensureCart_products, ensureCart_sizes, hp, hs] at hup
        exact Option.some.inj hup
      subst hupval
      unfold upsertCartItem at htr
      rw [ensureCart_cartItems, ensureCart_snd] at htr
      split at htr
      case h_2 hn2 =>
        rw [hit] at hn2
        simp at hn2
      case h_1 it2 hit2 =>
        obtain rfl := Option.some.inj (hit2.symm.trans hit)
        split at htr
        next => simp at htr
        next hle =>
          obtain ⟨hdb', hout'⟩ := Prod.mk.inj (Except.ok.inj htr)
          subst hdb'
          subst hout'
          constructor
          · rw [touchCart_cartItems]
            unfold mergeItemUpdate
            rw [ensureCart_cartItems]
          · rw [touchCart_cartItems]
            unfold mergeItemUpdate
            rw [ensureCart_cartItems]
            refine ⟨_, List.mem_map_of_mem _ (List.mem_of_find?_eq_some hit), ?_⟩
            simp
            intro hobs
            rw [hobs]
            rfl

/-- Witness for C10: the merge of `cargs1` into the existing row keeps
`unitPrice` 110 and recomputes `totalPrice` as `(100 + 10) * 4`. -/
theorem spCartItemAdd_merge_frame_witness :
    ∃ it' ∈ (spCartItemAdd wdbCart cargs1).1.cartItems,
      it'.idCartItem = 3 ∧ it'.idAccount = 1 ∧ it'.idCart = 7 ∧ it'.idProduct = 1 ∧
      it'.idFlavor = 1 ∧ it'.idSize = 5 ∧ it'.unitPrice = 110 ∧ it'.dateCreated = 0 ∧
      it'.quantity = 4 ∧ it'.totalPrice = 440 ∧
      (cargs1.observations = none → it'.observations = none) :=
  (spCartItemAdd_merge_frame wdbCart cargs1 (spCartItemAdd wdbCart cargs1).1
    ⟨3, 7, 2, 110, 220, true⟩ ⟨3, 1, 7, 1, 1, 5, 2, 110, 220, none, 0⟩
    ⟨1, 1, 1, 1, "cake", "d", "i", none, 100, none, "m", none, 4, 5, "t", true, true, 0, false⟩
    ⟨5, 1, "sz", "sd", 10, false⟩ rfl rfl rfl rfl).2

/-- `wdb` with a promotional price of 80 on the product. -/
def wdbPromo : Db :=
  { wdb with
      products := [⟨1, 1, 1, 1, "cake", "d", "i", none, 100, some 80, "m", none, 4, 5, "t",
        true, true, 0, false⟩] }

/-- A default product-list request for account 1. -/
def largs1 : ProductListArgs :=
  ⟨1, 1, 12, "relevancia", none, none, none, none, none, none, "disponivel", none⟩

/-- Claim C1: every product row returned by `spProductGet` or
`spProductList` carries `currentPrice = promotionalPrice ?? basePrice`,
and a successful `spCartItemAdd` returns — and, when it inserts a new
row, stores — a `unitPrice` equal to that effective price plus the
selected size's `priceModifier`. -/
theorem effective_price_rule :
    (∀ (db : Db) (a : ProductGetArgs) (res : ProductGetResult),
      spProductGet db a = .ok res →
      ∀ r ∈ res.details, r.currentPrice = r.promotionalPrice.getD r.basePrice) ∧
    (∀ (db : Db) (a : ProductListArgs) (outc : ProductListOutcome),
      spProductList db a = .ok outc →
      ∀ r ∈ outc.productList, r.currentPrice = r.promotionalPrice.getD r.basePrice) ∧
    (∀ (db : Db) (a : CartAddArgs) (db' : Db) (out : CartAddOut) (p : ProductRow) (s : SizeRow),
      db.products.find?
        (fun q => q.idProduct == a.idProduct && q.idAccount == a.idAccount) = some p →
      db.sizes.find? (fun z => z.idSize == a.idSize) = some s →
      spCartItemAdd db a = (db', Except.ok out) →
      out.unitPrice = p.promotionalPrice.getD p.basePrice + s.priceModifier ∧
        (db.cartItems.find? (cartItemMatch a (cartIdUsed db a)) = none →
          ∃ it' ∈ db'.cartItems, it'.idProduct = a.idProduct ∧ it'.idFlavor = a.idFlavor ∧
            it'.idSize = a.idSize ∧
            it'.unitPrice = p.promotionalPrice.getD p.basePrice + s.priceModifier)) := by
  refine ⟨?_, ?_, ?_⟩
  · intro db a res h r hr
    unfold spProductGet at h
    split at h
    next => simp at h
    next =>
      obtain rfl := Except.ok.inj h
      unfold getDetails at hr
      simp only [List.mem_filterMap] at hr
      obtain ⟨p0, _, hf⟩ := hr
      split at hf
      next =>
        rw [Option.bind_eq_some] at hf
        obtain ⟨c0, _, hc⟩ := hf
        split at hc
        next => simp at hc
        next =>
          obtain rfl := Option.some.inj hc
          simp [currentPrice]
      next => simp at hf
  · intro db a outc h r hr
    unfold spProductList at h
    split at h
    next => simp at h
    split at h
    next => simp at h
    split at h
    next => simp at h
    split at h
    next => simp at h
    split at h
    next => simp at h
    next =>
      rw [← Except.ok.inj h] at hr
      have hr' : r ∈ (((sortedFilteredProducts db a).drop
          ((a.page - 1) * a.pageSize).toNat).take a.pageSize.toNat).map projList := hr
      simp only [List.mem_map] at hr'
      obtain ⟨fr, _, rfl⟩ := hr'
      simp [projList, currentPrice]
  · intro db a db' out p s hp hs h
    unfold spCartItemAdd at h
    split at h
    next => simp at h
    split at h
    next => simp at h
    split at h
    next => simp at h
    split at h
    next => simp at h
    split at h
    next => simp at h
    split at h
    case h_2 => simp at h
    case h_1 db2 out2 htr =>
      obtain ⟨hdb, hout⟩ := Prod.mk.inj h
      subst hdb
      obtain rfl := Except.ok.inj hout
      unfold cartItemAddTran at htr
      split at htr
      next => simp at htr
      next up hup =>
        have hupval : currentPrice p + s.priceModifier = up := by
          unfold cartUnitPrice at hup
          rw [ensureCart_products, ensureCart_sizes, hp, hs] at hup
          exact Option.some.inj hup
        subst hupval
        unfold upsertCartItem at htr
        rw [ensureCart_cartItems, ensureCart_snd] at htr
        split at htr
        case h_1 it2 hit2 =>
          split at htr
          next => simp at htr
          next hle =>
            obtain ⟨hdb', hout'⟩ := Prod.mk.inj (Except.ok.inj htr)
            subst hdb'
            subst hout'
            refine ⟨by simp [currentPrice], ?_⟩
            intro hn
            rw [hit2] at hn
            simp at hn
        case h_2 hnone =>
          obtain ⟨hdb', hout'⟩ := Prod.mk.inj (Except.ok.inj htr)
          subst hdb'
          subst hout'
          refine ⟨by simp [currentPrice], ?_⟩
          intro _
          rw [touchCart_cartItems]
          unfold insertItem
          refine ⟨⟨(ensureCart db a).1.nextCartItemId, a.idAccount, cartIdUsed db a,
            a.idProduct, a.idFlavor, a.idSize, a.quantity,
            currentPrice p + s.priceModifier, (currentPrice p + s.priceModifier) * a.quantity,
            a.observations, (ensureCart db a).1.now⟩, by simp, ?_⟩
          simp [currentPrice]

/-- Witness for C1: with a promotional price of 80 and a size modifier
of 10, the detail and list rows report `currentPrice = 80` and the cart
add stores and returns `unitPrice = 90`. -/
theorem effective_price_rule_witness :
    (∀ r ∈ (⟨getDetails wdbPromo ⟨1, 1⟩, getFlavors wdbPromo ⟨1, 1⟩, getSizes wdbPromo ⟨1, 1⟩,
        getReviews wdbPromo ⟨1, 1⟩⟩ : ProductGetResult).details,
      r.currentPrice = r.promotionalPrice.getD r.basePrice) ∧
    (∀ r ∈ [(⟨1, "cake", "m", 100, some 80, 80, true, 4, 5, "cnf", true, "t", "cat"⟩ :
        ProductListOut)], r.currentPrice = r.promotionalPrice.getD r.basePrice) ∧
    ((⟨1, 1, 2, 90, 180, true⟩ : CartAddOut).unitPrice = (some 80).getD 100 + 10 ∧
      (wdbPromo.cartItems.find? (cartItemMatch cargs1 (cartIdUsed wdbPromo cargs1)) = none →
        ∃ it' ∈ (spCartItemAdd wdbPromo cargs1).1.cartItems, it'.idProduct = cargs1.idProduct ∧
          it'.idFlavor = cargs1.idFlavor ∧ it'.idSize = cargs1.idSize ∧
          it'.unitPrice = (some 80).getD 100 + 10)) :=
  ⟨effective_price_rule.1 wdbPromo ⟨1, 1⟩ _ rfl,
    effective_price_rule.2.1 wdbPromo largs1
      ⟨[⟨1, "cake", "m", 100, some 80, 80, true, 4, 5, "cnf", true, "t", "cat"⟩],
        Except.error SqlErr.invalidObjectName⟩ rfl,
    effective_price_rule.2.2 wdbPromo cargs1 (spCartItemAdd wdbPromo cargs1).1 ⟨1, 1, 2, 90, 180, true⟩
      ⟨1, 1, 1, 1, "cake", "d", "i", none, 100, some 80, "m", none, 4, 5, "t", true, true, 0, false⟩
      ⟨5, 1, "sz", "sd", 10, false⟩ rfl rfl rfl⟩

/-- Claim C4 (code-bug demonstration): the first result set of
`spProductList` is indeed the `OFFSET (page-1)*pageSize` /
`FETCH pageSize` slice of the sorted `FilteredProducts` set, but the
`Pagination` `SELECT` references the CTE outside the one statement it
is bound to, so every execution that passes validation fails there with
`Invalid object name 'FilteredProducts'` — the second result set with
`totalItems` and `totalPages` is never returned.  Shown concretely on
`wdb` with the default arguments, and in general for every call that
passes validation. -/
theorem spProductList_pagination_errors :
    spProductList wdb largs1 =
      .ok ⟨[⟨1, "cake", "m", 100, none, 100, false, 4, 5, "cnf", true, "t", "cat"⟩],
        Except.error SqlErr.invalidObjectName⟩ ∧
    (∀ (db : Db) (a : ProductListArgs) (outc : ProductListOutcome),
      spProductList db a = .ok outc →
      outc.productList = (((sortedFilteredProducts db a).drop
          ((a.page - 1) * a.pageSize).toNat).take a.pageSize.toNat).map projList ∧
        outc.pagination = Except.error SqlErr.invalidObjectName) := by
  constructor
  · rfl
  · intro db a outc h
    unfold spProductList at h
    split at h
    next => simp at h
    split at h
    next => simp at h
    split at h
    next => simp at h
    split at h
    next => simp at h
    split at h
    next => simp at h
    next =>
      rw [← Except.ok.inj h]
      exact ⟨rfl, rfl⟩

theorem isLinCmp_relCmp : IsLinCmp relCmp :=
  ((isLinCmp_cmpLin.comap fun r : RelRow => r.matchesCriteria).flip).lex
    (((isLinCmp_cmpLin.comap fun r : RelRow => r.popularity).flip).lex
      (((isLinCmp_cmpLin.comap fun r : RelRow => r.averageRating).flip).lex
        (isLinCmp_cmpLin.comap fun r : RelRow => r.idProduct)))

/-- Every `RelatedProducts` CTE row describes a product of the account
other than the reference product. -/
theorem relatedCandidates_excludes {db : Db} {a : ProductRelatedArgs} {r : RelRow}
    (hr : r ∈ relatedCandidates db a) : r.idProduct ≠ a.idProduct := by
  unfold relatedCandidates at hr
  simp only [List.mem_filterMap] at hr
  obtain ⟨p0, _, hf⟩ := hr
  split at hf
  next hguard =>
    rw [Option.bind_eq_some] at hf
    obtain ⟨c0, _, hc⟩ := hf
    split at hc
    next => simp at hc
    next =>
      obtain rfl := Option.some.inj hc
      simp only [Bool.and_eq_true, bne_iff_ne] at hguard
      exact hguard.1.1.1.2
  next => simp at hf

/-- Claim C3: a successful `spProductRelated` call returns the
projection of a ranked row list that holds at most `@limit` rows, never
contains the reference product, is sorted by criteria-match
descending, then popularity (`totalReviews`) descending, then
`averageRating` descending, then `idProduct`; and any candidate row
left out — in particular any criteria-matching one — implies the result
is full and every kept row ranks at least as high, which is exactly the
fallback to popular products when the criterion yields too few rows. -/
theorem spProductRelated_ranking (db : Db) (a : ProductRelatedArgs) (res : List RelatedOut)
    (h : spProductRelated db a = .ok res) :
    res = (relatedRows db a).map projRelated ∧
    res.length ≤ a.limit.toNat ∧
    (relatedRows db a).Pairwise (fun x y => cmpLe relCmp x y = true) ∧
    (∀ r ∈ relatedRows db a, r.idProduct ≠ a.idProduct) ∧
    (∀ r ∈ res, r.idProduct ≠ a.idProduct) ∧
    (∀ r ∈ relatedCandidates db a, r ∉ relatedRows db a →
      (relatedRows db a).length = a.limit.toNat ∧
        ∀ s ∈ relatedRows db a, cmpLe relCmp s r = true) := by
  have hres : res = (relatedRows db a).map projRelated := by
    unfold spProductRelated at h
    split at h
    next => simp at h
    split at h
    next => simp at h
    next => exact (Except.ok.inj h).symm
  have hmemRows : ∀ r ∈ relatedRows db a, r ∈ relatedCandidates db a := by
    intro r hr
    unfold relatedRows at hr
    exact mem_sortList.mp (List.mem_of_mem_take hr)
  refine ⟨hres, ?_, ?_, ?_, ?_, ?_⟩
  · rw [hres, List.length_map]
    unfold relatedRows
    rw [List.length_take]
    exact min_le_left _ _
  · unfold relatedRows
    exact List.Pairwise.sublist (List.take_sublist _ _)
      (sorted_sortList isLinCmp_relCmp.le_total
        (fun hxy hyz => isLinCmp_relCmp.le_trans hxy hyz) _)
  · intro r hr
    exact relatedCandidates_excludes (hmemRows r hr)
  · intro r hr
    rw [hres] at hr
    simp only [List.mem_map] at hr
    obtain ⟨r0, hr0, rfl⟩ := hr
    exact relatedCandidates_excludes (hmemRows r0 hr0)
  · intro r hr hout
    exact take_sortList_topk isLinCmp_relCmp hr hout

/-- `wdb` with two more available products: product 2 shares category 1
with the reference product 1 and has 7 reviews; product 3 is in category
2 with 9 reviews. -/
def wdbRel : Db :=
  { wdb with
      products :=
        [⟨1, 1, 1, 1, "cake", "d", "i", none, 100, none, "m", none, 4, 5, "t",
            true, true, 0, false⟩,
          ⟨2, 1, 1, 1, "brig", "d", "i", none, 50, none, "m", none, 3, 7, "t",
            true, true, 0, false⟩,
          ⟨3, 1, 2, 1, "pud", "d", "i", none, 60, none, "m", none, 5, 9, "t",
            true, true, 0, false⟩],
      categories := [⟨1, 1, "cat", false⟩, ⟨2, 1, "cat2", false⟩] }

/-- A related-products request: reference product 1, category criteria,
limit 4. -/
def rargs1 : ProductRelatedArgs := ⟨1, 1, 4, "categoria"⟩

/-- Witness for C3: on `wdbRel`, the category-matching product 2 ranks
before the more popular but non-matching product 3, and the conclusions
of the ranking theorem hold concretely. -/
theorem spProductRelated_ranking_witness :
    ([(⟨2, "brig", "m", 50, none, 50, 3, 7, "cnf"⟩ : RelatedOut),
        ⟨3, "pud", "m", 60, none, 60, 5, 9, "cnf"⟩] =
      (relatedRows wdbRel rargs1).map projRelated) ∧
    ([(⟨2, "brig", "m", 50, none, 50, 3, 7, "cnf"⟩ : RelatedOut),
        ⟨3, "pud", "m", 60, none, 60, 5, 9, "cnf"⟩] : List RelatedOut).length ≤
      rargs1.limit.toNat ∧
    (relatedRows wdbRel rargs1).Pairwise (fun x y => cmpLe relCmp x y = true) ∧
    (∀ r ∈ relatedRows wdbRel rargs1, r.idProduct ≠ rargs1.idProduct) ∧
    (∀ r ∈ [(⟨2, "brig", "m", 50, none, 50, 3, 7, "cnf"⟩ : RelatedOut),
        ⟨3, "pud", "m", 60, none, 60, 5, 9, "cnf"⟩], r.idProduct ≠ rargs1.idProduct) ∧
    (∀ r ∈ relatedCandidates wdbRel rargs1, r ∉ relatedRows wdbRel rargs1 →
      (relatedRows wdbRel rargs1).length = rargs1.limit.toNat ∧
        ∀ s ∈ relatedRows wdbRel rargs1, cmpLe relCmp s r = true) :=
  spProductRelated_ranking wdbRel rargs1
    [⟨2, "brig", "m", 50, none, 50, 3, 7, "cnf"⟩, ⟨3, "pud", "m", 60, none, 60, 5, 9, "cnf"⟩] rfl

/-- For `sortBy = 'relevancia'` every `CASE` sort key is `NULL`, so the
comparator degenerates to `idProduct` ascending. -/
theorem productListCmp_relevancia :
    productListCmp "relevancia" = fun x y => cmpLin x.prd.idProduct y.prd.idProduct := by
  funext x y
  rfl

/-- For `sortBy = 'mais_vendidos'` there is no `ORDER BY` branch either:
the comparator also degenerates to `idProduct` ascending. -/
theorem productListCmp_mais_vendidos :
    productListCmp "mais_vendidos" = fun x y => cmpLin x.prd.idProduct y.prd.idProduct := by
  funext x y
  rfl

theorem cmpLin_le {β : Type} [LinearOrder β] {x y : β} (h : cmpLin x y ≠ Ordering.gt) :
    x ≤ y := by
  unfold cmpLin at h
  split at h
  next h1 => exact le_of_lt h1
  next h1 =>
    split at h
    next => exact absurd rfl h
    next h2 => exact le_of_not_lt h2

theorem cmpLe_iff_ne_gt {α : Type} (c : α → α → Ordering) (x y : α) :
    cmpLe c x y = true ↔ c x y ≠ Ordering.gt := by
  unfold cmpLe
  cases h : c x y <;> simp

/-- Claim C8: `spProductList` returns exactly the same two result sets
for `sortBy = 'relevancia'` and `sortBy = 'mais_vendidos'` on every
database and argument record, and in both cases the rows come out
ordered by `idProduct` ascending — `'mais_vendidos'` does not order by
units sold. -/
theorem spProductList_relevancia_eq_mais_vendidos (db : Db) (a : ProductListArgs) :
    spProductList db { a with sortBy := "relevancia" } =
      spProductList db { a with sortBy := "mais_vendidos" } ∧
    ∀ outc, spProductList db { a with sortBy := "relevancia" } = .ok outc →
      outc.productList.Pairwise fun x y => x.idProduct ≤ y.idProduct := by
  constructor
  · rfl
  · intro outc h
    unfold spProductList at h
    split at h
    next => simp at h
    split at h
    next => simp at h
    split at h
    next => simp at h
    split at h
    next => simp at h
    split at h
    next => simp at h
    next =>
      rw [← Except.ok.inj h]
      have hcmp : IsLinCmp (productListCmp "relevancia") := by
        rw [productListCmp_relevancia]
        exact isLinCmp_cmpLin.comap fun r : FilteredProductRow => r.prd.idProduct
      have hsorted :
          (sortedFilteredProducts db { a with sortBy := "relevancia" }).Pairwise
            (fun x y => cmpLe (productListCmp "relevancia") x y = true) :=
        sorted_sortList hcmp.le_total (fun hxy hyz => hcmp.le_trans hxy hyz) _
      refine List.pairwise_map.mpr (List.Pairwise.imp ?_
        (List.Pairwise.sublist ((List.take_sublist _ _).trans (List.drop_sublist _ _)) hsorted))
      intro x y hxy
      show x.prd.idProduct ≤ y.prd.idProduct
      refine cmpLin_le ?_
      have := (cmpLe_iff_ne_gt _ _ _).mp hxy
      rw [productListCmp_relevancia] at this
      exact this

/-- Witness for C8: on the one-product database the two sorts coincide
and the returned page is ordered by `idProduct`. -/
theorem spProductList_relevancia_eq_mais_vendidos_witness :
    spProductList wdb { largs1 with sortBy := "relevancia" } =
      spProductList wdb { largs1 with sortBy := "mais_vendidos" } ∧
    ([(⟨1, "cake", "m", 100, none, 100, false, 4, 5, "cnf", true, "t", "cat"⟩ :
      ProductListOut)]).Pairwise (fun x y => x.idProduct ≤ y.idProduct) :=
  ⟨(spProductList_relevancia_eq_mais_vendidos wdb largs1).1,
    (spProductList_relevancia_eq_mais_vendidos wdb largs1).2
      ⟨[⟨1, "cake", "m", 100, none, 100, false, 4, 5, "cnf", true, "t", "cat"⟩],
        Except.error SqlErr.invalidObjectName⟩ rfl⟩

/-- The rows of account `A`: the restriction of every table to
`idAccount = A`, with the identity counters and the clock unchanged. -/
def restrictDb (A : Int) (db : Db) : Db :=
  { products := db.products.filter fun r => r.idAccount == A,
    categories := db.categories.filter fun r => r.idAccount == A,
    confectioners := db.confectioners.filter fun r => r.idAccount == A,
    flavors := db.flavors.filter fun r => r.idAccount == A,
    sizes := db.sizes.filter fun r => r.idAccount == A,
    productFlavors := db.productFlavors.filter fun r => r.idAccount == A,
    productSizes := db.productSizes.filter fun r => r.idAccount == A,
    reviews := db.reviews.filter fun r => r.idAccount == A,
    carts := db.carts.filter fun r => r.idAccount == A,
    cartItems := db.cartItems.filter fun r => r.idAccount == A,
    nextCartId := db.nextCartId,
    nextCartItemId := db.nextCartItemId,
    now := db.now }

/-- `wdb`, except that the `size` row with `idSize = 5` belongs to
account 2 with `priceModifier = 10`.  Account 1's `productSize` row
`(1, 1, 5)` still satisfies the foreign key `fkProductSize_Size`, which
is not account-scoped. -/
def db6a : Db := { wdb with sizes := [⟨5, 2, "sz", "sd", 10, false⟩] }

/-- Same as `db6a` but account 2's size row has `priceModifier = 20`;
account 1's rows are identical to `db6a`'s. -/
def db6b : Db := { wdb with sizes := [⟨5, 2, "sz", "sd", 20, false⟩] }

/-- Claim C6 (failing-input demonstration): `db6a` and `db6b` agree on
every account-1 row and differ only in an account-2 `size` row, yet
`spCartItemAdd` for account 1 succeeds on both with different
`unitPrice`s (110 vs 120): the `size` join of the unit-price `SELECT`
filters only on `idSize`, not on `idAccount`, so the procedure reads
another account's row, violating noninterference by `idAccount`. -/
theorem spCartItemAdd_size_join_account_leak :
    restrictDb 1 db6a = restrictDb 1 db6b ∧
    db6a.sizes.all (fun s => s.idAccount == 2) = true ∧
    db6b.sizes.all (fun s => s.idAccount == 2) = true ∧
    (spCartItemAdd db6a cargs1).2 = Except.ok ⟨1, 1, 2, 110, 220, true⟩ ∧
    (spCartItemAdd db6b cargs1).2 = Except.ok ⟨1, 1, 2, 120, 240, true⟩ ∧
    (spCartItemAdd db6a cargs1).2 ≠ (spCartItemAdd db6b cargs1).2 := by
  refine ⟨by decide, by decide, by decide, rfl, rfl, ?_⟩
  intro hco
  have h1 : (Except.ok ⟨1, 1, 2, 110, 220, true⟩ : Except SqlErr CartAddOut) =
      Except.ok ⟨1, 1, 2, 120, 240, true⟩ := hco
  have h2 := CartAddOut.mk.inj (Except.ok.inj h1)
  exact absurd h2.2.2.2.1 (by decide)

end LoveCakes
